import Mathlib

/-
Verification of the connection-registry logic of hemant-dhiman/MySQL-connection
(package `connection`, file connection.go), as a shallow embedding.

Modelling choices:
  * A `*gorm.DB` handle is modelled as an abstract identifier (`Nat`); a fresh
    handle is drawn from the counter `nextHandle` each time `gorm.Open`
    succeeds, so distinct successful opens yield distinct handles.
  * The external world (the MySQL driver and the network) is an oracle `Env`
    saying, for each call, whether `gorm.Open` fails on a given config and
    whether `db.DB()`, `Ping()` and `Close()` fail on a given handle.
  * Go maps are modelled as association lists with Go insert/delete semantics;
    registry methods are state-passing functions returning the new registry
    state together with the Go return values (`Option Nat` for a `*gorm.DB`
    that may be nil, `Option String` for an `error` that may be nil).
  * `sync.Mutex` is dropped: each operation is modelled as one atomic step.
  * Calls that only configure or log (SetMaxOpenConns, SetMaxIdleConns,
    SetConnMaxLifetime, SetConnMaxIdleTime, log.Printf, fmt.Printf) have no
    registry-observable effect and are elided.
-/

namespace MySQLConn

/-- Lookup in a Go-style string-keyed map modelled as an association list:
returns the value of the first pair whose key matches, like `m[k]` with its
`ok` flag (`none` plays the role of `ok = false`). -/
def mapLookup {α : Type} (k : String) : List (String × α) → Option α
  | [] => none
  | p :: rest => if p.1 = k then some p.2 else mapLookup k rest

/-- Go `delete(m, k)`: removes every pair whose key is `k`. -/
def mapErase {α : Type} (k : String) : List (String × α) → List (String × α)
  | [] => []
  | p :: rest => if p.1 = k then mapErase k rest else p :: mapErase k rest

/-- Go `m[k] = v`: after the assignment the map binds `k` to `v` and holds at
most one entry for `k`. -/
def mapInsert {α : Type} (k : String) (v : α) (m : List (String × α)) :
    List (String × α) :=
  (k, v) :: mapErase k m

/-- Number of entries stored under key `k`. -/
def countKey {α : Type} (k : String) : List (String × α) → Nat
  | [] => 0
  | p :: rest => (if p.1 = k then 1 else 0) + countKey k rest

/-- The keys of the map, in storage order. -/
def mapKeys {α : Type} (m : List (String × α)) : List String :=
  m.map Prod.fst

/-- Go struct `DBConfig` from connection.go: the connection string and the
four pool parameters. `time.Duration` is an int64 nanosecond count, modelled
as `Int`. Go `==` on this struct is field-wise, matching structural equality
here. -/
structure DBConfig where
  dataSourceName : String
  maxOpen : Int
  maxIdle : Int
  lifetime : Int
  idleTime : Int
deriving DecidableEq

/-- The zero value of `DBConfig` that Go produces for a missing map entry
and that `GetDbConfig` compares against. -/
def DBConfig.zero : DBConfig :=
  { dataSourceName := "", maxOpen := 0, maxIdle := 0, lifetime := 0, idleTime := 0 }

/-- Oracle for the external driver library: which calls fail during the
operation under consideration. `openFails cfg` says `gorm.Open` on that
config returns an error; `dbFails h`, `pingFails h` and `closeFails h` say
`db.DB()`, `sqlDB.Ping()` and `sqlDB.Close()` fail on handle `h`. -/
structure Env where
  openFails : DBConfig → Bool
  dbFails : Nat → Bool
  pingFails : Nat → Bool
  closeFails : Nat → Bool

/-- Go struct `MySqlConnection`: the two registry maps. `nextHandle` is the
modelling counter supplying a fresh identifier for each successful
`gorm.Open`; it is not part of the Go struct. The mutex is dropped. -/
structure MySqlConnection where
  connections : List (String × Nat)
  configs : List (String × DBConfig)
  nextHandle : Nat
deriving DecidableEq

/-- Go `GetMySqlConnection`: the single registry instance as first
constructed by `once.Do` — both maps empty. -/
def GetMySqlConnection : MySqlConnection :=
  { connections := [], configs := [], nextHandle := 0 }

/-- Go `InitDataSourceConnection(name, config)`. Returns the updated registry
and the Go `error` result. An existing name is a no-op success; otherwise
the call opens a handle, obtains the pool handle, pings it, and stores
handle and config only if all three steps succeed. A handle is allocated
(the counter advances) whenever `gorm.Open` succeeds, even if a later step
fails and the handle is discarded. -/
def InitDataSourceConnection (env : Env) (f : MySqlConnection) (name : String)
    (config : DBConfig) : MySqlConnection × Option String :=
  if (mapLookup name f.connections).isSome then
    (f, none)
  else if env.openFails config then
    (f, some ("failed to initialize database connection " ++ name))
  else
    let db := f.nextHandle
    let f1 : MySqlConnection := { f with nextHandle := f.nextHandle + 1 }
    if env.dbFails db then
      (f1, some ("failed to retrieve database handle for " ++ name))
    else if env.pingFails db then
      (f1, some ("failed to ping database " ++ name))
    else
      ({ f1 with connections := mapInsert name db f.connections
                 configs := mapInsert name config f.configs }, none)

/-- Go `CloseConnection(name)`. Unknown name: error, no mutation. Known name:
obtain the pool handle and close it; on either failure return an error with
the entry left in place; on success delete the name from both maps. -/
def CloseConnection (env : Env) (f : MySqlConnection) (name : String) :
    MySqlConnection × Option String :=
  match mapLookup name f.connections with
  | none => (f, some ("database connection " ++ name ++ " does not exist"))
  | some db =>
    if env.dbFails db then
      (f, some ("error retrieving database handle for " ++ name))
    else if env.closeFails db then
      (f, some ("error closing database connection " ++ name))
    else
      ({ f with connections := mapErase name f.connections
                configs := mapErase name f.configs }, none)

/-- Go `reconnect(name, config)`: close the unhealthy entry, re-run
`InitDataSourceConnection` with the remembered config, then re-fetch the
fresh handle from the map. Each failing step propagates its error wrapped
with context. -/
def reconnect (env : Env) (f : MySqlConnection) (name : String)
    (config : DBConfig) : MySqlConnection × Option Nat × Option String :=
  match CloseConnection env f name with
  | (f1, some e) =>
      (f1, none, some ("failed to remove connection " ++ name ++ ": " ++ e))
  | (f1, none) =>
    match InitDataSourceConnection env f1 name config with
    | (f2, some e) =>
        (f2, none, some ("failed to reconnect to database " ++ name ++ ": " ++ e))
    | (f2, none) => (f2, mapLookup name f2.connections, none)

/-- Go `GetDB(name)`. Unknown name: nil handle and a does-not-exist error.
Known name: probe liveness (`db.DB()` then `Ping`); if the probe passes,
return the stored handle; if it fails, return a missing-configuration error
when no config is on record, else delegate to `reconnect`. -/
def GetDB (env : Env) (f : MySqlConnection) (name : String) :
    MySqlConnection × Option Nat × Option String :=
  match mapLookup name f.connections, mapLookup name f.configs with
  | none, _ =>
      (f, none, some ("database connection " ++ name ++ " does not exist"))
  | some db, configOpt =>
    if env.dbFails db || env.pingFails db then
      match configOpt with
      | none =>
          (f, none,
           some ("no configuration found to reconnect database " ++ name))
      | some config => reconnect env f name config
    else
      (f, some db, none)

/-- Go `CloseAllConnections`: closes every handle best-effort (failures are
only logged) and unconditionally replaces both maps with fresh empty maps.
The close calls have no registry-observable effect, so no `Env` is taken. -/
def CloseAllConnections (f : MySqlConnection) : MySqlConnection :=
  { f with connections := [], configs := [] }

/-- The listing computed by Go `PrintAllExistingDb`: the names of entries
whose pool handle is currently obtainable, in map order. -/
def connectionNames (env : Env) (f : MySqlConnection) : List String :=
  (f.connections.filter (fun p => !(env.dbFails p.2))).map Prod.fst

/-- Go `GetDbConfig(conName)`: the stored config, where a missing entry reads
as the zero value, which the function then maps to the zero sentinel again. -/
def GetDbConfig (f : MySqlConnection) (conName : String) : DBConfig :=
  let config := (mapLookup conName f.configs).getD DBConfig.zero
  if config = DBConfig.zero then DBConfig.zero else config

/-- Registry invariant of the spec: every key present in `connections` also
has an entry in `configs`. -/
def Inv (f : MySqlConnection) : Prop :=
  ∀ p ∈ f.connections, (mapLookup p.1 f.configs).isSome = true

instance (f : MySqlConnection) : Decidable (Inv f) :=
  inferInstanceAs
    (Decidable (∀ p ∈ f.connections, (mapLookup p.1 f.configs).isSome = true))

/-- Sample pool configuration, as in the demo entry point. -/
def cfgA : DBConfig :=
  { dataSourceName := "userA:pw@tcp(localhost:3306)/dbA", maxOpen := 12,
    maxIdle := 10, lifetime := 300000000000, idleTime := 60000000000 }

/-- A second, different sample configuration. -/
def cfgB : DBConfig :=
  { dataSourceName := "userB:pw@tcp(localhost:3306)/dbB", maxOpen := 5,
    maxIdle := 2, lifetime := 60000000000, idleTime := 1800000000000 }

/-- A healthy external world: no driver call fails. -/
def envGood : Env :=
  { openFails := fun _ => false, dbFails := fun _ => false,
    pingFails := fun _ => false, closeFails := fun _ => false }

/-- World in which handle 0 was invalidated out-of-band: its ping fails but
everything else works, so a reconnect can succeed. -/
def envStale : Env :=
  { openFails := fun _ => false, dbFails := fun _ => false,
    pingFails := fun h => h == 0, closeFails := fun _ => false }

/-- World in which `db.DB()` itself errors on handle 0. -/
def envDbBroken : Env :=
  { openFails := fun _ => true, dbFails := fun h => h == 0,
    pingFails := fun _ => false, closeFails := fun _ => false }

/-- World in which handle 0 fails its ping and also fails to close. -/
def envCloseBroken : Env :=
  { openFails := fun _ => false, dbFails := fun _ => false,
    pingFails := fun h => h == 0, closeFails := fun h => h == 0 }

/-- World in which handle 0 fails its ping, closing works, but every fresh
open fails, so a reconnect loses the entry. -/
def envReopenFails : Env :=
  { openFails := fun _ => true, dbFails := fun _ => false,
    pingFails := fun h => h == 0, closeFails := fun _ => false }

/-- Registry holding one successfully initialized connection named alpha:
handle 0 with configuration `cfgA`. -/
def regA : MySqlConnection :=
  (InitDataSourceConnection envGood GetMySqlConnection "alpha" cfgA).1

/-- Registry state with a connection entry but no recorded configuration,
exercising the missing-configuration path of `GetDB`. -/
def regNoCfg : MySqlConnection :=
  { connections := [("alpha", 0)], configs := [], nextHandle := 1 }

/- Helper lemmas about the Go-map model. -/

theorem mapLookup_erase_self {α : Type} (k : String) (m : List (String × α)) :
    mapLookup k (mapErase k m) = none := by
  induction m with
  | nil => rfl
  | cons p rest ih =>
    by_cases h : p.1 = k
    · simpa [mapErase, h] using ih
    · simpa [mapErase, mapLookup, h] using ih

theorem mapLookup_erase_ne {α : Type} {k k' : String} (m : List (String × α))
    (h : k' ≠ k) : mapLookup k' (mapErase k m) = mapLookup k' m := by
  induction m with
  | nil => rfl
  | cons p rest ih =>
    have hkk : ¬(k = k') := fun hh => h hh.symm
    by_cases hp : p.1 = k
    · have hne : p.1 ≠ k' := by rw [hp]; exact fun hh => h hh.symm
      simp [mapErase, mapLookup, hp, hne, hkk, ih]
    · by_cases hp' : p.1 = k'
      · simp [mapErase, mapLookup, hp, hp', hkk, h]
      · simp [mapErase, mapLookup, hp, hp', ih]

theorem mapLookup_insert_self {α : Type} (k : String) (v : α)
    (m : List (String × α)) : mapLookup k (mapInsert k v m) = some v := by
  simp [mapInsert, mapLookup]

theorem mapLookup_insert_ne {α : Type} {k k' : String} (v : α)
    (m : List (String × α)) (h : k' ≠ k) :
    mapLookup k' (mapInsert k v m) = mapLookup k' m := by
  have hk : k ≠ k' := fun hh => h hh.symm
  simp [mapInsert, mapLookup, hk, mapLookup_erase_ne m h]

theorem mem_mapErase {α : Type} {p : String × α} {k : String}
    {m : List (String × α)} (h : p ∈ mapErase k m) : p ∈ m ∧ p.1 ≠ k := by
  induction m with
  | nil => simp [mapErase] at h
  | cons q rest ih =>
    by_cases hq : q.1 = k
    · rw [mapErase, if_pos hq] at h
      rcases ih h with ⟨h1, h2⟩
      exact ⟨List.mem_cons_of_mem _ h1, h2⟩
    · rw [mapErase, if_neg hq] at h
      rcases List.mem_cons.mp h with rfl | h'
      · exact ⟨List.mem_cons_self _ _, hq⟩
      · rcases ih h' with ⟨h1, h2⟩
        exact ⟨List.mem_cons_of_mem _ h1, h2⟩

theorem countKey_eq_zero {α : Type} {k : String} {m : List (String × α)}
    (h : k ∉ mapKeys m) : countKey k m = 0 := by
  induction m with
  | nil => rfl
  | cons p rest ih =>
    rw [show mapKeys (p :: rest) = p.1 :: mapKeys rest from rfl,
        List.mem_cons, not_or] at h
    have h1 : p.1 ≠ k := fun hh => h.1 hh.symm
    simp [countKey, h1, ih h.2]

theorem countKey_eq_one {α : Type} {k : String} {m : List (String × α)}
    (hnd : (mapKeys m).Nodup) (hk : (mapLookup k m).isSome = true) :
    countKey k m = 1 := by
  induction m with
  | nil => simp [mapLookup] at hk
  | cons p rest ih =>
    rw [show mapKeys (p :: rest) = p.1 :: mapKeys rest from rfl,
        List.nodup_cons] at hnd
    by_cases hp : p.1 = k
    · have hz : countKey k rest = 0 := countKey_eq_zero (hp ▸ hnd.1)
      simp [countKey, hp, hz]
    · rw [mapLookup, if_neg hp] at hk
      simp [countKey, hp, ih hnd.2 hk]

theorem init_fail_frame (env : Env) (f : MySqlConnection) (name : String)
    (config : DBConfig) (habs : mapLookup name f.connections = none)
    (hfail : env.openFails config = true ∨ env.dbFails f.nextHandle = true ∨
      env.pingFails f.nextHandle = true) :
    (InitDataSourceConnection env f name config).1.connections = f.connections ∧
    (InitDataSourceConnection env f name config).1.configs = f.configs ∧
    (InitDataSourceConnection env f name config).2.isSome = true := by
  unfold InitDataSourceConnection
  by_cases h1 : env.openFails config
  · simp [habs, h1]
  · by_cases h2 : env.dbFails f.nextHandle
    · simp [habs, h1, h2]
    · by_cases h3 : env.pingFails f.nextHandle
      · simp [habs, h1, h2, h3]
      · rcases hfail with h | h | h <;> simp_all

theorem init_success_state (env : Env) (f : MySqlConnection) (name : String)
    (config : DBConfig) (habs : mapLookup name f.connections = none)
    (h1 : env.openFails config = false)
    (h2 : env.dbFails f.nextHandle = false)
    (h3 : env.pingFails f.nextHandle = false) :
    InitDataSourceConnection env f name config =
      ({ connections := mapInsert name f.nextHandle f.connections,
         configs := mapInsert name config f.configs,
         nextHandle := f.nextHandle + 1 }, none) := by
  unfold InitDataSourceConnection
  simp [habs, h1, h2, h3]

theorem close_success_state (env : Env) (f : MySqlConnection) (name : String)
    (db : Nat) (hdb : mapLookup name f.connections = some db)
    (h1 : env.dbFails db = false) (h2 : env.closeFails db = false) :
    CloseConnection env f name =
      ({ f with connections := mapErase name f.connections,
                configs := mapErase name f.configs }, none) := by
  unfold CloseConnection
  rw [hdb]
  simp [h1, h2]

theorem Inv_init (env : Env) (f : MySqlConnection) (name : String)
    (config : DBConfig) (h : Inv f) :
    Inv (InitDataSourceConnection env f name config).1 := by
  unfold InitDataSourceConnection
  by_cases h0 : (mapLookup name f.connections).isSome
  · simpa [h0] using h
  · by_cases h1 : env.openFails config
    · simpa [h0, h1] using h
    · by_cases h2 : env.dbFails f.nextHandle
      · simpa [h0, h1, h2] using h
      · by_cases h3 : env.pingFails f.nextHandle
        · simpa [h0, h1, h2, h3] using h
        · simp only [h0, h1, h2, h3, if_false, if_neg, Bool.false_eq_true,
            if_true]
          intro p hp
          simp only [mapInsert, List.mem_cons] at hp
          rcases hp with rfl | hp'
          · simp [mapLookup_insert_self]
          · have hm := mem_mapErase hp'
            show (mapLookup p.1 (mapInsert name config f.configs)).isSome = true
            rw [mapLookup_insert_ne _ _ hm.2]
            exact h p hm.1

theorem Inv_close (env : Env) (f : MySqlConnection) (name : String)
    (h : Inv f) : Inv (CloseConnection env f name).1 := by
  unfold CloseConnection
  cases hl : mapLookup name f.connections with
  | none => simpa using h
  | some db =>
    by_cases h1 : env.dbFails db
    · simpa [h1] using h
    · by_cases h2 : env.closeFails db
      · simpa [h1, h2] using h
      · simp only [h1, h2, Bool.false_eq_true, if_false]
        intro p hp
        have hm := mem_mapErase hp
        show (mapLookup p.1 (mapErase name f.configs)).isSome = true
        rw [mapLookup_erase_ne _ hm.2]
        exact h p hm.1

theorem Inv_reconnect (env : Env) (f : MySqlConnection) (name : String)
    (config : DBConfig) (h : Inv f) :
    Inv (reconnect env f name config).1 := by
  have hf1 : Inv (CloseConnection env f name).1 := Inv_close env f name h
  have hf2 :
      Inv (InitDataSourceConnection env (CloseConnection env f name).1 name
        config).1 :=
    Inv_init env _ name config hf1
  unfold reconnect
  split
  · next f1 e hi => rw [hi] at hf1; simpa using hf1
  · next f1 hi =>
    rw [hi] at hf2
    have hf2' : Inv (InitDataSourceConnection env f1 name config).1 := hf2
    split
    · next f2 e2 hi2 => rw [hi2] at hf2'; simpa using hf2'
    · next f2 hi2 => rw [hi2] at hf2'; simpa using hf2'

theorem reconnect_eq_of_close_ok (env : Env) (f : MySqlConnection)
    (name : String) (config : DBConfig) (f1 : MySqlConnection)
    (hclose : CloseConnection env f name = (f1, none)) :
    reconnect env f name config =
      (match InitDataSourceConnection env f1 name config with
       | (f2, some e) =>
           (f2, none,
            some ("failed to reconnect to database " ++ name ++ ": " ++ e))
       | (f2, none) => (f2, mapLookup name f2.connections, none)) := by
  unfold reconnect
  rw [hclose]

theorem Inv_getDB (env : Env) (f : MySqlConnection) (name : String)
    (h : Inv f) : Inv (GetDB env f name).1 := by
  unfold GetDB
  cases hl : mapLookup name f.connections with
  | none => simpa using h
  | some db =>
    cases hcfg : mapLookup name f.configs with
    | none =>
      by_cases hp : env.dbFails db || env.pingFails db
      · simpa [hp] using h
      · simpa [hp] using h
    | some config =>
      by_cases hp : env.dbFails db || env.pingFails db
      · simpa [hp] using Inv_reconnect env f name config h
      · simpa [hp] using h

/- Claim theorems. -/

/-- C2: `InitDataSourceConnection` is idempotent per name — when the name is
already present in the connections map, a second call returns no error and
the registry keeps exactly one entry for that name. -/
theorem initDataSource_idempotent (env : Env) (f : MySqlConnection)
    (name : String) (config : DBConfig)
    (hpres : (mapLookup name f.connections).isSome = true)
    (hnd : (mapKeys f.connections).Nodup) :
    (InitDataSourceConnection env f name config).2 = none ∧
    countKey name (InitDataSourceConnection env f name config).1.connections
      = 1 := by
  have hstate : InitDataSourceConnection env f name config = (f, none) := by
    unfold InitDataSourceConnection
    simp [hpres]
  rw [hstate]
  exact ⟨rfl, countKey_eq_one hnd hpres⟩

theorem initDataSource_idempotent_witness :
    (InitDataSourceConnection envGood regA "alpha" cfgB).2 = none ∧
    countKey "alpha"
      (InitDataSourceConnection envGood regA "alpha" cfgB).1.connections
      = 1 :=
  initDataSource_idempotent envGood regA "alpha" cfgB (by decide) (by decide)

/-- C10: duplicate initialization discards the new config — with the name
already present, `InitDataSourceConnection` with any second config returns
success and the whole registry state (the stored handle, the stored config,
and every other entry of both maps) is unchanged. -/
theorem initDataSource_duplicate_frame (env : Env) (f : MySqlConnection)
    (name : String) (config2 : DBConfig)
    (hpres : (mapLookup name f.connections).isSome = true) :
    InitDataSourceConnection env f name config2 = (f, none) := by
  unfold InitDataSourceConnection
  simp [hpres]

theorem initDataSource_duplicate_frame_witness :
    InitDataSourceConnection envGood regA "alpha" cfgB = (regA, none) :=
  initDataSource_duplicate_frame envGood regA "alpha" cfgB (by decide)

/-- C3: `InitDataSourceConnection` is atomic on failure — for a name not yet
registered, if the open, the pool-handle retrieval, or the initial ping
fails, the call errors and both maps are exactly as before. -/
theorem initDataSource_atomic_failure (env : Env) (f : MySqlConnection)
    (name : String) (config : DBConfig)
    (habs : mapLookup name f.connections = none)
    (hfail : env.openFails config = true ∨ env.dbFails f.nextHandle = true ∨
      env.pingFails f.nextHandle = true) :
    (InitDataSourceConnection env f name config).1.connections
      = f.connections ∧
    (InitDataSourceConnection env f name config).1.configs = f.configs ∧
    (InitDataSourceConnection env f name config).2.isSome = true :=
  init_fail_frame env f name config habs hfail

theorem initDataSource_atomic_failure_witness :
    (InitDataSourceConnection envDbBroken GetMySqlConnection "alpha"
      cfgA).1.connections = GetMySqlConnection.connections ∧
    (InitDataSourceConnection envDbBroken GetMySqlConnection "alpha"
      cfgA).1.configs = GetMySqlConnection.configs ∧
    (InitDataSourceConnection envDbBroken GetMySqlConnection "alpha"
      cfgA).2.isSome = true :=
  initDataSource_atomic_failure envDbBroken GetMySqlConnection "alpha" cfgA
    (by decide) (by decide)

/-- C4: not-found contract — for a name absent from the connections map,
`GetDB` returns a nil handle with a does-not-exist error and
`CloseConnection` returns a does-not-exist error, and neither call mutates
the registry state. -/
theorem notFound_contract (env : Env) (f : MySqlConnection) (name : String)
    (habs : mapLookup name f.connections = none) :
    GetDB env f name =
      (f, none, some ("database connection " ++ name ++ " does not exist")) ∧
    CloseConnection env f name =
      (f, some ("database connection " ++ name ++ " does not exist")) := by
  constructor
  · unfold GetDB
    rw [habs]
  · unfold CloseConnection
    rw [habs]

theorem notFound_contract_witness :
    GetDB envGood regA "ghost" =
      (regA, none,
       some ("database connection " ++ "ghost" ++ " does not exist")) ∧
    CloseConnection envGood regA "ghost" =
      (regA, some ("database connection " ++ "ghost" ++ " does not exist")) :=
  notFound_contract envGood regA "ghost" (by decide)

/-- C5: for a name present in the connections map whose liveness probe fails
and with no recorded config, `GetDB` returns a nil handle and a
no-configuration-found error without attempting reconnection and without
mutating the registry. -/
theorem getDB_missingConfig (env : Env) (f : MySqlConnection) (name : String)
    (db : Nat) (hdb : mapLookup name f.connections = some db)
    (hcfg : mapLookup name f.configs = none)
    (hfail : env.dbFails db = true ∨ env.pingFails db = true) :
    GetDB env f name =
      (f, none,
       some ("no configuration found to reconnect database " ++ name)) := by
  have hcond : (env.dbFails db || env.pingFails db) = true := by
    rcases hfail with h | h <;> simp [h]
  unfold GetDB
  rw [hdb, hcfg]
  simp [hcond]

theorem getDB_missingConfig_witness :
    GetDB envStale regNoCfg "alpha" =
      (regNoCfg, none,
       some ("no configuration found to reconnect database " ++ "alpha")) :=
  getDB_missingConfig envStale regNoCfg "alpha" 0 (by decide) (by decide)
    (by decide)

/-- C7: `CloseAllConnections` drains everything — afterwards both maps are
empty regardless of the external world, every name fails `GetDB` with a
not-found error, and the listing reports no names. -/
theorem closeAll_drains (env env2 : Env) (f : MySqlConnection)
    (name : String) :
    (CloseAllConnections f).connections = [] ∧
    (CloseAllConnections f).configs = [] ∧
    connectionNames env (CloseAllConnections f) = [] ∧
    (GetDB env2 (CloseAllConnections f) name).2.1 = none ∧
    (GetDB env2 (CloseAllConnections f) name).2.2 =
      some ("database connection " ++ name ++ " does not exist") := by
  refine ⟨rfl, rfl, rfl, ?_, ?_⟩ <;>
    simp [GetDB, CloseAllConnections, mapLookup]

/-- C8 counterexample: the claim roundtrips the config of every successful
`InitDataSourceConnection`, but a duplicate initialization with a different
config also succeeds (no-op) while `GetDbConfig` keeps returning the
original config, not the one just passed. -/
theorem configRoundTrip_cex :
    (InitDataSourceConnection envGood regA "alpha" cfgB).2 = none ∧
    ¬(GetDbConfig (InitDataSourceConnection envGood regA "alpha" cfgB).1
        "alpha" = cfgB) := by
  decide

/-- C8 amended: for a name not already registered, after a successful
`InitDataSourceConnection` the stored config read back by `GetDbConfig` is
structurally equal to the config passed; and for any registry state with no
config entry for a name, `GetDbConfig` returns the zero sentinel. -/
theorem configRoundTrip (env : Env) (f g : MySqlConnection)
    (name n : String) (config : DBConfig)
    (habs : mapLookup name f.connections = none)
    (hok : (InitDataSourceConnection env f name config).2 = none)
    (hg : mapLookup n g.configs = none) :
    GetDbConfig (InitDataSourceConnection env f name config).1 name = config ∧
    GetDbConfig g n = DBConfig.zero := by
  constructor
  · cases h1 : env.openFails config with
    | true =>
      exfalso
      unfold InitDataSourceConnection at hok
      simp [habs, h1] at hok
    | false =>
      cases h2 : env.dbFails f.nextHandle with
      | true =>
        exfalso
        unfold InitDataSourceConnection at hok
        simp [habs, h1, h2] at hok
      | false =>
        cases h3 : env.pingFails f.nextHandle with
        | true =>
          exfalso
          unfold InitDataSourceConnection at hok
          simp [habs, h1, h2, h3] at hok
        | false =>
          rw [init_success_state env f name config habs h1 h2 h3]
          unfold GetDbConfig
          simp only [mapLookup_insert_self, Option.getD_some]
          by_cases hz : config = DBConfig.zero
          · simp [hz]
          · simp [hz]
  · unfold GetDbConfig
    simp [hg]

theorem configRoundTrip_witness :
    GetDbConfig
      (InitDataSourceConnection envGood GetMySqlConnection "alpha" cfgA).1
      "alpha" = cfgA ∧
    GetDbConfig regA "beta" = DBConfig.zero :=
  configRoundTrip envGood GetMySqlConnection regA "alpha" "beta" cfgA
    (by decide) (by decide) (by decide)

/-- C6 counterexample: the claim says a failing close step of `reconnect`
leaves the name absent from both maps, but when the underlying close call
fails the entry stays in place: here the close step errors, the error
surfaces through `reconnect` and `GetDB`, and alpha is still present in
both maps with its old handle. -/
theorem reconnect_failure_cex :
    (CloseConnection envCloseBroken regA "alpha").2.isSome = true ∧
    (reconnect envCloseBroken regA "alpha" cfgA).2.2.isSome = true ∧
    mapLookup "alpha"
      (reconnect envCloseBroken regA "alpha" cfgA).1.connections = some 0 ∧
    mapLookup "alpha"
      (reconnect envCloseBroken regA "alpha" cfgA).1.configs = some cfgA ∧
    (GetDB envCloseBroken regA "alpha").2.2.isSome = true := by
  decide

/-- C6 amended: when the close step of `reconnect` succeeds and the
re-initialize step fails, the error is returned to the caller with a nil
handle and the name ends up absent from both the connections map and the
configs map; when the close step itself fails the entry remains. -/
theorem reconnect_reinit_failure_absent (env : Env) (f : MySqlConnection)
    (name : String) (config : DBConfig) (db : Nat)
    (hdb : mapLookup name f.connections = some db)
    (h1 : env.dbFails db = false) (h2 : env.closeFails db = false)
    (hfail : env.openFails config = true ∨ env.dbFails f.nextHandle = true ∨
      env.pingFails f.nextHandle = true) :
    (reconnect env f name config).2.2.isSome = true ∧
    (reconnect env f name config).2.1 = none ∧
    mapLookup name (reconnect env f name config).1.connections = none ∧
    mapLookup name (reconnect env f name config).1.configs = none := by
  have hclose := close_success_state env f name db hdb h1 h2
  have habs1 : mapLookup name (mapErase name f.connections) = none :=
    mapLookup_erase_self name f.connections
  obtain ⟨hc, hcf, he⟩ := init_fail_frame env
    { f with connections := mapErase name f.connections,
             configs := mapErase name f.configs } name config habs1 hfail
  rw [reconnect_eq_of_close_ok env f name config _ hclose]
  cases hi : InitDataSourceConnection env
      { f with connections := mapErase name f.connections,
               configs := mapErase name f.configs } name config with
  | mk f2 e2 =>
    rw [hi] at hc hcf he
    cases e2 with
    | none => simp at he
    | some err =>
      refine ⟨rfl, rfl, ?_, ?_⟩
      · show mapLookup name f2.connections = none
        rw [show f2.connections = mapErase name f.connections from hc]
        exact mapLookup_erase_self name f.connections
      · show mapLookup name f2.configs = none
        rw [show f2.configs = mapErase name f.configs from hcf]
        exact mapLookup_erase_self name f.configs

theorem reconnect_reinit_failure_absent_witness :
    (reconnect envReopenFails regA "alpha" cfgA).2.2.isSome = true ∧
    (reconnect envReopenFails regA "alpha" cfgA).2.1 = none ∧
    mapLookup "alpha"
      (reconnect envReopenFails regA "alpha" cfgA).1.connections = none ∧
    mapLookup "alpha"
      (reconnect envReopenFails regA "alpha" cfgA).1.configs = none :=
  reconnect_reinit_failure_absent envReopenFails regA "alpha" cfgA 0
    (by decide) (by decide) (by decide) (by decide)

/-- C1 counterexample: the claim promises a fresh handle with no error for
any probe failure, including a failing `db.DB()`; but when `db.DB()` errors
the close step of the reconnect fails too, so `GetDB` returns a nil handle
and an error even though alpha was successfully initialized and has a
recorded config. -/
theorem getDB_selfHealing_cex :
    mapLookup "alpha" regA.connections = some 0 ∧
    mapLookup "alpha" regA.configs = some cfgA ∧
    envDbBroken.dbFails 0 = true ∧
    (GetDB envDbBroken regA "alpha").2.1 = none ∧
    (GetDB envDbBroken regA "alpha").2.2.isSome = true := by
  decide

/-- C1 amended: self-healing get — for a stored handle whose probe fails
only at the ping (the pool handle is still obtainable), when the close of
the stale handle and the re-open with the recorded config succeed, `GetDB`
closes the old entry, stores a fresh handle under the same name, and
returns that fresh handle (distinct from the old one) with no error; the
recorded config is kept under the same key. -/
theorem getDB_selfHealing (env : Env) (f : MySqlConnection) (name : String)
    (db : Nat) (config : DBConfig)
    (hdb : mapLookup name f.connections = some db)
    (hcfg : mapLookup name f.configs = some config)
    (hping : env.pingFails db = true)
    (hdbok : env.dbFails db = false)
    (hclok : env.closeFails db = false)
    (hopen : env.openFails config = false)
    (hdbn : env.dbFails f.nextHandle = false)
    (hpingn : env.pingFails f.nextHandle = false) :
    (GetDB env f name).2.2 = none ∧
    (GetDB env f name).2.1 = some f.nextHandle ∧
    f.nextHandle ≠ db ∧
    mapLookup name (GetDB env f name).1.connections = some f.nextHandle ∧
    mapLookup name (GetDB env f name).1.configs = some config := by
  have hne : f.nextHandle ≠ db := by
    intro hh
    rw [hh, hping] at hpingn
    exact Bool.noConfusion hpingn
  have hclose := close_success_state env f name db hdb hdbok hclok
  have hinit := init_success_state env
    { f with connections := mapErase name f.connections,
             configs := mapErase name f.configs } name config
    (mapLookup_erase_self name f.connections) hopen hdbn hpingn
  have hget : GetDB env f name = reconnect env f name config := by
    unfold GetDB
    rw [hdb, hcfg]
    simp [hping]
  have hrec : reconnect env f name config =
      ({ connections :=
           mapInsert name f.nextHandle (mapErase name f.connections),
         configs := mapInsert name config (mapErase name f.configs),
         nextHandle := f.nextHandle + 1 },
       some f.nextHandle, none) := by
    rw [reconnect_eq_of_close_ok env f name config _ hclose, hinit]
    simp [mapLookup_insert_self]
  rw [hget, hrec]
  exact ⟨rfl, rfl, hne, mapLookup_insert_self name f.nextHandle _,
    mapLookup_insert_self name config _⟩

theorem getDB_selfHealing_witness :
    (GetDB envStale regA "alpha").2.2 = none ∧
    (GetDB envStale regA "alpha").2.1 = some regA.nextHandle ∧
    regA.nextHandle ≠ 0 ∧
    mapLookup "alpha" (GetDB envStale regA "alpha").1.connections
      = some regA.nextHandle ∧
    mapLookup "alpha" (GetDB envStale regA "alpha").1.configs = some cfgA :=
  getDB_selfHealing envStale regA "alpha" 0 cfgA (by decide) (by decide)
    (by decide) (by decide) (by decide) (by decide) (by decide) (by decide)

/-- C9: registry invariant — every key of the connections map has an entry
in the configs map; this holds of the empty registry produced by
`GetMySqlConnection` and is preserved by `InitDataSourceConnection`,
`GetDB`, `reconnect`, `CloseConnection`, and `CloseAllConnections`. -/
theorem registry_invariant (env : Env) (f : MySqlConnection) (name : String)
    (config : DBConfig) (h : Inv f) :
    Inv GetMySqlConnection ∧
    Inv (InitDataSourceConnection env f name config).1 ∧
    Inv (GetDB env f name).1 ∧
    Inv (reconnect env f name config).1 ∧
    Inv (CloseConnection env f name).1 ∧
    Inv (CloseAllConnections f) :=
  ⟨fun p hp => absurd hp (List.not_mem_nil p),
   Inv_init env f name config h, Inv_getDB env f name h,
   Inv_reconnect env f name config h, Inv_close env f name h,
   fun p hp => absurd hp (List.not_mem_nil p)⟩

theorem registry_invariant_witness :
    Inv GetMySqlConnection ∧
    Inv (InitDataSourceConnection envGood regA "alpha" cfgA).1 ∧
    Inv (GetDB envGood regA "alpha").1 ∧
    Inv (reconnect envGood regA "alpha" cfgA).1 ∧
    Inv (CloseConnection envGood regA "alpha").1 ∧
    Inv (CloseAllConnections regA) :=
  registry_invariant envGood regA "alpha" cfgA (by decide)

end MySQLConn
